import Mathlib

/-!
# exam_assistant — `frontend/src/services/httpService.js`

A shallow embedding of the HTTP client module and the properties of its
request/response contract.

The module consists of eight `async` functions.  Each one builds a request,
hands it to the browser's `fetch`, inspects the `Response` and either returns a
value or throws.  The embedding keeps that shape:

* JavaScript values are the inductive type `JSValue`;
* the browser (network plus JSON parser) is a function `Fetch` from requests to
  either a thrown error or a `Response`; a `Response` carries the status line
  and what `await response.json()` settles to;
* an `async` function body is a computation `JS α`: run against a `Fetch` it
  yields an `Outcome`, the ordered list of observable events (requests issued,
  `response.json()` calls, `console.error` lines) and the value returned or the
  error thrown.
-/

namespace HttpService

/-! ## JavaScript values -/

/-- JavaScript values that can flow through the module: the JSON values plus
`undefined` (an omitted argument, or the result of reading a missing property).
`number n` stands for the integer-valued double `n` (in the range where
JavaScript prints a number as a plain decimal); fractional numbers, `NaN` and
the infinities are outside the model.  `object props` lists the own properties
in enumeration order; reading a key finds its first binding. -/
inductive JSValue where
  | undefined
  | null
  | bool (b : Bool)
  | number (n : Int)
  | string (s : String)
  | array (items : List JSValue)
  | object (props : List (String × JSValue))

/-- An error object: its `name` ("Error", "TypeError", "SyntaxError", ...) and
its `message`. -/
structure JSError where
  name : String
  message : String
deriving DecidableEq, Repr

namespace JSValue

/-- ECMAScript `ToBoolean`: `undefined`, `null`, `false`, `0` and `""` are
falsy, every other value (every array and object included) is truthy. -/
def truthy : JSValue → Bool
  | undefined => false
  | null => false
  | bool b => b
  | number n => decide (n ≠ 0)
  | string s => decide (s ≠ "")
  | array _ => true
  | object _ => true

/-- The operator `a || b`: `a` when `a` is truthy, otherwise `b`. -/
def or (a b : JSValue) : JSValue :=
  if a.truthy then a else b

mutual
/-- ECMAScript `ToString` on the values of the model. -/
def toStr : JSValue → String
  | undefined => "undefined"
  | null => "null"
  | bool b => if b then "true" else "false"
  | number n => toString n
  | string s => s
  | array items => joinItems items
  | object _ => "[object Object]"
/-- The body of `Array.prototype.join(",")`, which is what `ToString` of an
array is: `null` and `undefined` elements contribute the empty string. -/
def joinItems : List JSValue → String
  | [] => ""
  | [undefined] => ""
  | [null] => ""
  | [v] => toStr v
  | undefined :: rest => "," ++ joinItems rest
  | null :: rest => "," ++ joinItems rest
  | v :: rest => toStr v ++ "," ++ joinItems rest
end

/-- Property read `v.key`, for a key that no built-in prototype defines (the
module reads `success`, `message`, `results`, `answers`, `result`, `image`):
on `null` and `undefined` it throws a `TypeError` (the message text is the
engine's; one is fixed here), on an object it is the bound value or
`undefined`, on every other value it is `undefined`. -/
def get (v : JSValue) (key : String) : Except JSError JSValue :=
  match v with
  | undefined => .error ⟨"TypeError", "Cannot read properties of undefined"⟩
  | null => .error ⟨"TypeError", "Cannot read properties of null"⟩
  | object props => .ok ((props.lookup key).getD undefined)
  | _ => .ok undefined

end JSValue

open JSValue

/-- The expression `new Error(message)`: the `message` property is
`ToString(message)`, and stays the prototype's empty string when the argument
is `undefined`. -/
def Error_new (message : JSValue) : JSError :=
  match message with
  | .undefined => ⟨"Error", ""⟩
  | m => ⟨"Error", m.toStr⟩

/-! ## `JSON.stringify` -/

/-- Two lowercase hexadecimal digits of a code unit below 256. -/
def hex2 (n : Nat) : String :=
  String.mk [Nat.digitChar (n / 16 % 16), Nat.digitChar (n % 16)]

/-- The escape of one character inside a JSON string literal
(`QuoteJSONString`): the two-character escapes, `\u00XX` for the other control
characters, the character itself otherwise. -/
def quoteChar (c : Char) : String :=
  if c = Char.ofNat 8 then "\\b"
  else if c = Char.ofNat 9 then "\\t"
  else if c = Char.ofNat 10 then "\\n"
  else if c = Char.ofNat 12 then "\\f"
  else if c = Char.ofNat 13 then "\\r"
  else if c = Char.ofNat 34 then "\\\""
  else if c = Char.ofNat 92 then "\\\\"
  else if c.toNat < 32 then "\\u00" ++ hex2 c.toNat
  else String.singleton c

/-- The operation `QuoteJSONString`: the string between double quotes, each character
escaped. -/
def quoteJSON (s : String) : String :=
  "\"" ++ String.join (s.data.map quoteChar) ++ "\""

mutual
/-- The operation `SerializeJSONProperty` on a value that is not `undefined`:
the JSON text of the value. -/
def serialize : JSValue → String
  | .undefined => "null"
  | .null => "null"
  | .bool b => if b then "true" else "false"
  | .number n => toString n
  | .string s => quoteJSON s
  | .array items => "[" ++ serializeItems items ++ "]"
  | .object props => "\x7b" ++ serializeProps true props ++ "\x7d"
/-- The elements of an array, comma separated; an `undefined` element is
written `null`. -/
def serializeItems : List JSValue → String
  | [] => ""
  | [v] => serialize v
  | v :: rest => serialize v ++ "," ++ serializeItems rest
/-- The members of an object, comma separated; a property whose value is
`undefined` is left out.  `first` tells whether no member has been written
yet. -/
def serializeProps (first : Bool) : List (String × JSValue) → String
  | [] => ""
  | (_, .undefined) :: rest => serializeProps first rest
  | (k, v) :: rest =>
      (if first then "" else ",") ++ quoteJSON k ++ ":" ++ serialize v
        ++ serializeProps false rest
end

/-- The function `JSON.stringify(value)`: `undefined` (here `none`) for
`undefined`, the JSON text otherwise. -/
def JSON_stringify : JSValue → Option String
  | .undefined => none
  | v => some (serialize v)

/-! ## The browser: requests, responses, events -/

/-- What the module passes to `fetch(url, init)`: `init.body` is absent
(`none`) where the source gives no `body`. -/
structure Request where
  url : String
  method : String
  headers : List (String × String)
  body : Option String
deriving DecidableEq, Repr

/-- The part of a `Response` the module looks at: the status line and what
`await response.json()` settles to (the parsed body, or the thrown error). -/
structure Response where
  status : Nat
  statusText : String
  json : Except JSError JSValue

/-- The getter `response.ok` of the Fetch standard: the status is in the range
200 to 299. -/
def Response.ok (r : Response) : Bool :=
  decide (200 ≤ r.status) && decide (r.status ≤ 299)

/-- The transport: what `await fetch(request)` settles to. -/
abbrev Fetch := Request → Except JSError Response

/-- Observable events of a call, in the order they happen. -/
inductive Event where
  | fetch (req : Request)
  | json
  | consoleError (label : String) (error : JSError)

/-- The requests among the events. -/
def requestsOf : List Event → List Request
  | [] => []
  | .fetch req :: rest => req :: requestsOf rest
  | _ :: rest => requestsOf rest

/-- The `console.error` lines among the events. -/
def logsOf : List Event → List (String × JSError)
  | [] => []
  | .consoleError label e :: rest => (label, e) :: logsOf rest
  | _ :: rest => logsOf rest

/-- The number of `response.json()` calls among the events. -/
def parsesOf : List Event → Nat
  | [] => 0
  | .json :: rest => parsesOf rest + 1
  | _ :: rest => parsesOf rest

/-- What a call did and how it ended: `result` is `.ok v` when the promise
resolves to `v` and `.error e` when it rejects with `e`. -/
structure Outcome (α : Type) where
  trace : List Event
  result : Except JSError α

/-- A computation of the module, run against a transport. -/
def JS (α : Type) : Type := Fetch → Outcome α

namespace JS

/-- A computation that returns `a` and does nothing. -/
def ret {α : Type} (a : α) : JS α := fun _ => ⟨[], .ok a⟩

/-- Sequencing: the second computation runs only if the first did not throw;
the events of both are kept in order. -/
def seq {α β : Type} (m : JS α) (f : α → JS β) : JS β := fun net =>
  match m net with
  | ⟨t, .error e⟩ => ⟨t, .error e⟩
  | ⟨t, .ok a⟩ =>
    match f a net with
    | ⟨t2, r⟩ => ⟨t ++ t2, r⟩

/-- The statement `throw e`. -/
def raise {α : Type} (e : JSError) : JS α := fun _ => ⟨[], .error e⟩

/-- The statement `try body catch (error) handler`. -/
def tryCatch {α : Type} (body : JS α) (handler : JSError → JS α) : JS α := fun net =>
  match body net with
  | ⟨t, .ok a⟩ => ⟨t, .ok a⟩
  | ⟨t, .error e⟩ =>
    match handler e net with
    | ⟨t2, r⟩ => ⟨t ++ t2, r⟩

instance : Monad JS where
  pure := ret
  bind := seq

instance : MonadExcept JSError JS where
  throw := raise
  tryCatch := tryCatch

end JS

/-- The call `await fetch(url, init)`: one request is issued; it settles to
the transport's answer. -/
def fetch (req : Request) : JS Response := fun net =>
  ⟨[.fetch req], net req⟩

/-- The call `await response.json()`. -/
def Response.parse (r : Response) : JS JSValue := fun _ =>
  ⟨[.json], r.json⟩

/-- The call `console.error(label, error)`. -/
def console_error (label : String) (error : JSError) : JS Unit := fun _ =>
  ⟨[.consoleError label error], .ok ()⟩

/-- A property read inside a computation: it may throw. -/
def prop (v : JSValue) (key : String) : JS JSValue := fun _ =>
  ⟨[], v.get key⟩

/-- A default parameter `p = d`: the default applies when the argument is
`undefined` (omitted). -/
def defaultParam (arg d : JSValue) : JSValue :=
  match arg with
  | .undefined => d
  | v => v

/-! ## The module -/

/-- The constant `API_BASE_URL`. -/
def API_BASE_URL : String := "http://localhost:8088"

/-- The object literal `{ 'Content-Type': 'application/json' }`. -/
def jsonHeaders : List (String × String) := [("Content-Type", "application/json")]

/-- The template literal of the status check. -/
def httpFailure (response : Response) : JSValue :=
  .string ("HTTP请求失败: " ++ toString response.status ++ " " ++ response.statusText)

/-- The function `searchAnswers(query, filters = {})`. -/
def searchAnswers (query filters : JSValue) : JS JSValue := do
  let filters := defaultParam filters (.object [])
  try
    let response ← fetch {
      url := API_BASE_URL ++ "/api/search"
      method := "POST"
      headers := jsonHeaders
      body := JSON_stringify (.object [("query", query), ("filters", filters)]) }
    if !response.ok then
      throw (Error_new (httpFailure response))
    let data ← response.parse
    if !(← prop data "success").truthy then
      throw (Error_new ((← prop data "message").or (.string "搜索失败")))
    return (← prop data "results").or (.array [])
  catch error =>
    console_error "搜索答案失败:" error
    throw error

/-- The function `parseCSVFile(filePath, encoding, optionSeparator,
answerSeparator)`. -/
def parseCSVFile (filePath encoding optionSeparator answerSeparator : JSValue) : JS JSValue := do
  try
    let response ← fetch {
      url := API_BASE_URL ++ "/api/parse-csv"
      method := "POST"
      headers := jsonHeaders
      body := JSON_stringify (.object [("filePath", filePath), ("encoding", encoding),
        ("optionSeparator", optionSeparator), ("answerSeparator", answerSeparator)]) }
    if !response.ok then
      throw (Error_new (httpFailure response))
    let data ← response.parse
    if !(← prop data "success").truthy then
      throw (Error_new ((← prop data "message").or (.string "CSV解析失败")))
    return (← prop data "results").or (.array [])
  catch error =>
    console_error "CSV解析失败:" error
    throw error

/-- The function `setGlobalAnswers(answers)`. -/
def setGlobalAnswers (answers : JSValue) : JS JSValue := do
  try
    let response ← fetch {
      url := API_BASE_URL ++ "/api/set-global-answers"
      method := "POST"
      headers := jsonHeaders
      body := JSON_stringify (.object [("answers", answers)]) }
    if !response.ok then
      throw (Error_new (httpFailure response))
    let data ← response.parse
    if !(← prop data "success").truthy then
      throw (Error_new ((← prop data "message").or (.string "设置全局答案失败")))
    return (← prop data "message").or (.string "")
  catch error =>
    console_error "设置全局答案失败:" error
    throw error

/-- The function `getGlobalAnswers()`. -/
def getGlobalAnswers : JS JSValue := do
  try
    let response ← fetch {
      url := API_BASE_URL ++ "/api/get-global-answers"
      method := "GET"
      headers := jsonHeaders
      body := none }
    if !response.ok then
      throw (Error_new (httpFailure response))
    let data ← response.parse
    if !(← prop data "success").truthy then
      throw (Error_new ((← prop data "message").or (.string "获取全局答案失败")))
    return (← prop data "answers").or (.array [])
  catch error =>
    console_error "获取全局答案失败:" error
    throw error

/-- The function `testOCRConnection(config)`. -/
def testOCRConnection (config : JSValue) : JS JSValue := do
  try
    let response ← fetch {
      url := API_BASE_URL ++ "/api/test-ocr"
      method := "POST"
      headers := jsonHeaders
      body := JSON_stringify (.object [("config", config)]) }
    if !response.ok then
      throw (Error_new (httpFailure response))
    let data ← response.parse
    if !(← prop data "success").truthy then
      throw (Error_new ((← prop data "message").or (.string "OCR测试失败")))
    return (← prop data "result").or (.string "")
  catch error =>
    console_error "OCR测试失败:" error
    throw error

/-- The function `takeScreenshot()`. -/
def takeScreenshot : JS JSValue := do
  try
    let response ← fetch {
      url := API_BASE_URL ++ "/api/take-screenshot"
      method := "POST"
      headers := jsonHeaders
      body := none }
    if !response.ok then
      throw (Error_new (httpFailure response))
    let data ← response.parse
    if !(← prop data "success").truthy then
      throw (Error_new ((← prop data "message").or (.string "截图失败")))
    return (← prop data "image").or (.string "")
  catch error =>
    console_error "截图失败:" error
    throw error

/-- The function `performOCR(area, config)`. -/
def performOCR (area config : JSValue) : JS JSValue := do
  try
    let response ← fetch {
      url := API_BASE_URL ++ "/api/perform-ocr"
      method := "POST"
      headers := jsonHeaders
      body := JSON_stringify (.object [("area", area), ("config", config)]) }
    if !response.ok then
      throw (Error_new (httpFailure response))
    let data ← response.parse
    if !(← prop data "success").truthy then
      throw (Error_new ((← prop data "message").or (.string "OCR执行失败")))
    return (← prop data "result").or (.string "")
  catch error =>
    console_error "OCR执行失败:" error
    throw error

/-- The function `testConnection()`. -/
def testConnection : JS Bool := do
  try
    let response ← fetch {
      url := API_BASE_URL ++ "/api/search"
      method := "POST"
      headers := jsonHeaders
      body := JSON_stringify (.object [("query", .string "test"), ("filters", .object [])]) }
    return response.ok
  catch error =>
    console_error "连接测试失败:" error
    return false

/-! ## The seven raising operations as one family -/

/-- A call of one of the seven exported functions other than `testConnection`,
with its arguments (an omitted argument is `undefined`). -/
inductive Call where
  | searchAnswers (query filters : JSValue)
  | parseCSVFile (filePath encoding optionSeparator answerSeparator : JSValue)
  | setGlobalAnswers (answers : JSValue)
  | getGlobalAnswers
  | testOCRConnection (config : JSValue)
  | takeScreenshot
  | performOCR (area config : JSValue)

/-- Running a call is running the function it names. -/
def Call.run : Call → JS JSValue
  | .searchAnswers query filters => HttpService.searchAnswers query filters
  | .parseCSVFile filePath encoding optionSeparator answerSeparator =>
      HttpService.parseCSVFile filePath encoding optionSeparator answerSeparator
  | .setGlobalAnswers answers => HttpService.setGlobalAnswers answers
  | .getGlobalAnswers => HttpService.getGlobalAnswers
  | .testOCRConnection config => HttpService.testOCRConnection config
  | .takeScreenshot => HttpService.takeScreenshot
  | .performOCR area config => HttpService.performOCR area config

/-! ## The specification's table

The definitions below are written from the specification (the table of
operations and the surrounding sentences), not from the code; the theorems
compare the functions above with them. -/

/-- Specification table, column "Result field". -/
def Call.resultKey : Call → String
  | .searchAnswers _ _ => "results"
  | .parseCSVFile _ _ _ _ => "results"
  | .setGlobalAnswers _ => "message"
  | .getGlobalAnswers => "answers"
  | .testOCRConnection _ => "result"
  | .takeScreenshot => "image"
  | .performOCR _ _ => "result"

/-- Specification table, column "Empty default": whether the operation
returns a sequence (otherwise it returns a string). -/
def Call.returnsSequence : Call → Bool
  | .searchAnswers _ _ => true
  | .parseCSVFile _ _ _ _ => true
  | .setGlobalAnswers _ => false
  | .getGlobalAnswers => true
  | .testOCRConnection _ => false
  | .takeScreenshot => false
  | .performOCR _ _ => false

/-- Specification table, column "Empty default": the empty sequence or the
empty string. -/
def Call.emptyDefault (c : Call) : JSValue :=
  if c.returnsSequence then .array [] else .string ""

/-- A value has the shape the operation declares for its result: a sequence
for `results` and `answers`, a string for `message`, `result` and `image`. -/
def Call.declaredShape (c : Call) : JSValue → Bool
  | .array _ => c.returnsSequence
  | .string _ => !c.returnsSequence
  | _ => false

/-- Specification table, column "Fallback failure message", with the strings
the table glosses in English. -/
def Call.fallback : Call → String
  | .searchAnswers _ _ => "搜索失败"
  | .parseCSVFile _ _ _ _ => "CSV解析失败"
  | .setGlobalAnswers _ => "设置全局答案失败"
  | .getGlobalAnswers => "获取全局答案失败"
  | .testOCRConnection _ => "OCR测试失败"
  | .takeScreenshot => "截图失败"
  | .performOCR _ _ => "OCR执行失败"

/-- Specification table, column "Path". -/
def Call.path : Call → String
  | .searchAnswers _ _ => "/api/search"
  | .parseCSVFile _ _ _ _ => "/api/parse-csv"
  | .setGlobalAnswers _ => "/api/set-global-answers"
  | .getGlobalAnswers => "/api/get-global-answers"
  | .testOCRConnection _ => "/api/test-ocr"
  | .takeScreenshot => "/api/take-screenshot"
  | .performOCR _ _ => "/api/perform-ocr"

/-- Specification table, column "Method". -/
def Call.method : Call → String
  | .getGlobalAnswers => "GET"
  | _ => "POST"

/-- Specification table, column "Request fields": the flat mapping of the
listed field names to the caller's values, `filters` being the empty mapping
when the caller omits it; `none` for the two operations without a body. -/
def Call.payload : Call → Option JSValue
  | .searchAnswers query .undefined =>
      some (.object [("query", query), ("filters", .object [])])
  | .searchAnswers query filters =>
      some (.object [("query", query), ("filters", filters)])
  | .parseCSVFile filePath encoding optionSeparator answerSeparator =>
      some (.object [("filePath", filePath), ("encoding", encoding),
        ("optionSeparator", optionSeparator), ("answerSeparator", answerSeparator)])
  | .setGlobalAnswers answers => some (.object [("answers", answers)])
  | .getGlobalAnswers => none
  | .testOCRConnection config => some (.object [("config", config)])
  | .takeScreenshot => none
  | .performOCR area config => some (.object [("area", area), ("config", config)])

/-- The request the specification describes for a call: the fixed base URL
followed by the path, the declared method, the payload as JSON text, and the
header `Content-Type: application/json`. -/
def Call.specRequest (c : Call) : Request :=
  { url := "http://localhost:8088" ++ c.path
    method := c.method
    headers := [("Content-Type", "application/json")]
    body := c.payload.bind JSON_stringify }

/-- The label of the `console.error` line of each function (from the source:
the first argument of the call in its `catch` block). -/
def Call.logLabel : Call → String
  | .searchAnswers _ _ => "搜索答案失败:"
  | .parseCSVFile _ _ _ _ => "CSV解析失败:"
  | .setGlobalAnswers _ => "设置全局答案失败:"
  | .getGlobalAnswers => "获取全局答案失败:"
  | .testOCRConnection _ => "OCR测试失败:"
  | .takeScreenshot => "截图失败:"
  | .performOCR _ _ => "OCR执行失败:"

/-- The outcome every one of the seven functions has, written out case by
case on what the transport answers: `req` is the request, `key` the result
key, `dflt` the empty default, `fb` the fallback message, `label` the log
label. -/
def envelopeOutcome (req : Request) (key : String) (dflt : JSValue) (fb label : String)
    (net : Fetch) : Outcome JSValue :=
  match net req with
  | .error e => ⟨[.fetch req, .consoleError label e], .error e⟩
  | .ok response =>
    if response.ok then
      match response.json with
      | .error e => ⟨[.fetch req, .json, .consoleError label e], .error e⟩
      | .ok data =>
        match data.get "success" with
        | .error e => ⟨[.fetch req, .json, .consoleError label e], .error e⟩
        | .ok success =>
          if success.truthy then
            match data.get key with
            | .error e => ⟨[.fetch req, .json, .consoleError label e], .error e⟩
            | .ok v => ⟨[.fetch req, .json], .ok (v.or dflt)⟩
          else
            match data.get "message" with
            | .error e => ⟨[.fetch req, .json, .consoleError label e], .error e⟩
            | .ok m =>
              ⟨[.fetch req, .json, .consoleError label (Error_new (m.or (.string fb)))],
                .error (Error_new (m.or (.string fb)))⟩
    else
      ⟨[.fetch req, .consoleError label (Error_new (httpFailure response))],
        .error (Error_new (httpFailure response))⟩

/-! ## Concrete inputs used below -/

/-- The response `200 OK` with body `{"success":true,"results":[{"id":1}]}`. -/
def searchHit : Response :=
  ⟨200, "OK", .ok (.object [("success", .bool true),
    ("results", .array [.object [("id", .number 1)]])])⟩

/-- The response `200 OK` with body `{"success":false,"message":"no answers set"}`. -/
def noAnswersSet : Response :=
  ⟨200, "OK", .ok (.object [("success", .bool false), ("message", .string "no answers set")])⟩

/-- The response `200 OK` with body `{"success":false,"message":""}`. -/
def emptyMessage : Response :=
  ⟨200, "OK", .ok (.object [("success", .bool false), ("message", .string "")])⟩

/-- The response `200 OK` with body `{"success":true}`. -/
def bareSuccess : Response :=
  ⟨200, "OK", .ok (.object [("success", .bool true)])⟩

/-- The response `200 OK` with body `{"results":[]}`: no `success`, no `message`. -/
def noSuccessField : Response :=
  ⟨200, "OK", .ok (.object [("results", .array [])])⟩

/-- The response `500 Internal Server Error` whose body would parse to
`{"success":true,"results":[{"id":1}]}`. -/
def serverError : Response :=
  ⟨500, "Internal Server Error", .ok (.object [("success", .bool true),
    ("results", .array [.object [("id", .number 1)]])])⟩

/-- The response `200 OK` with body `{"success":1,"answers":null}`. -/
def nullAnswers : Response :=
  ⟨200, "OK", .ok (.object [("success", .number 1), ("answers", .null)])⟩

/-- A transport that is down: every `fetch` rejects with the browser's
`TypeError`. -/
def offline : Fetch := fun _ => .error ⟨"TypeError", "Failed to fetch"⟩

/-! ## Unfolding the functions -/

/-! ## Unfolding the functions

Each function, run against a transport, has the outcome `envelopeOutcome`
describes, with its own request, result key, default, fallback and label. -/

theorem searchAnswers_outcome (query filters : JSValue) (net : Fetch) :
    searchAnswers query filters net
      = envelopeOutcome (Call.searchAnswers query filters).specRequest "results" (.array [])
          "搜索失败" "搜索答案失败:" net := by
  have hreq : (Call.searchAnswers query filters).specRequest
      = ⟨API_BASE_URL ++ "/api/search", "POST", jsonHeaders,
          JSON_stringify (.object [("query", query),
            ("filters", defaultParam filters (.object []))])⟩ := by
    cases filters <;> rfl
  rw [hreq]
  simp only [searchAnswers, envelopeOutcome]
  cases hn : net _ with
  | error e =>
    simp [JS.tryCatch, bind, JS.seq, fetch, pure, JS.ret, throw, throwThe,
      MonadExceptOf.throw, MonadExcept.throw, JS.raise, Response.parse, prop, console_error,
      tryCatch, tryCatchThe, MonadExceptOf.tryCatch, MonadExcept.tryCatch, hn]
  | ok response =>
    cases hok : response.ok with
    | false =>
      simp [JS.tryCatch, bind, JS.seq, fetch, pure, JS.ret, throw, throwThe,
      MonadExceptOf.throw, MonadExcept.throw, JS.raise, Response.parse, prop, console_error,
      tryCatch, tryCatchThe, MonadExceptOf.tryCatch, MonadExcept.tryCatch, hn, hok]
    | true =>
      cases hj : response.json with
      | error e =>
        simp [JS.tryCatch, bind, JS.seq, fetch, pure, JS.ret, throw, throwThe,
      MonadExceptOf.throw, MonadExcept.throw, JS.raise, Response.parse, prop, console_error,
      tryCatch, tryCatchThe, MonadExceptOf.tryCatch, MonadExcept.tryCatch, hn, hok, hj]
      | ok data =>
        cases hs : data.get "success" with
        | error e =>
          simp [JS.tryCatch, bind, JS.seq, fetch, pure, JS.ret, throw, throwThe,
      MonadExceptOf.throw, MonadExcept.throw, JS.raise, Response.parse, prop, console_error,
      tryCatch, tryCatchThe, MonadExceptOf.tryCatch, MonadExcept.tryCatch, hn, hok, hj, hs]
        | ok success =>
          cases ht : success.truthy with
          | false =>
            cases hm : data.get "message" <;>
            simp [JS.tryCatch, bind, JS.seq, fetch, pure, JS.ret, throw, throwThe,
      MonadExceptOf.throw, MonadExcept.throw, JS.raise, Response.parse, prop, console_error,
      tryCatch, tryCatchThe, MonadExceptOf.tryCatch, MonadExcept.tryCatch, hn, hok, hj, hs, ht, hm]
          | true =>
            cases hm : data.get "results" <;>
            simp [JS.tryCatch, bind, JS.seq, fetch, pure, JS.ret, throw, throwThe,
      MonadExceptOf.throw, MonadExcept.throw, JS.raise, Response.parse, prop, console_error,
      tryCatch, tryCatchThe, MonadExceptOf.tryCatch, MonadExcept.tryCatch, hn, hok, hj, hs, ht, hm]

theorem parseCSVFile_outcome (filePath encoding optionSeparator answerSeparator : JSValue) (net : Fetch) :
    parseCSVFile filePath encoding optionSeparator answerSeparator net
      = envelopeOutcome (Call.parseCSVFile filePath encoding optionSeparator answerSeparator).specRequest "results" (.array [])
          "CSV解析失败" "CSV解析失败:" net := by
  have hreq : (Call.parseCSVFile filePath encoding optionSeparator answerSeparator).specRequest
      = ⟨API_BASE_URL ++ "/api/parse-csv", "POST", jsonHeaders,
          JSON_stringify (.object [("filePath", filePath), ("encoding", encoding),
            ("optionSeparator", optionSeparator), ("answerSeparator", answerSeparator)])⟩ := rfl
  rw [hreq]
  simp only [parseCSVFile, envelopeOutcome]
  cases hn : net _ with
  | error e =>
    simp [JS.tryCatch, bind, JS.seq, fetch, pure, JS.ret, throw, throwThe,
      MonadExceptOf.throw, MonadExcept.throw, JS.raise, Response.parse, prop, console_error,
      tryCatch, tryCatchThe, MonadExceptOf.tryCatch, MonadExcept.tryCatch, hn]
  | ok response =>
    cases hok : response.ok with
    | false =>
      simp [JS.tryCatch, bind, JS.seq, fetch, pure, JS.ret, throw, throwThe,
      MonadExceptOf.throw, MonadExcept.throw, JS.raise, Response.parse, prop, console_error,
      tryCatch, tryCatchThe, MonadExceptOf.tryCatch, MonadExcept.tryCatch, hn, hok]
    | true =>
      cases hj : response.json with
      | error e =>
        simp [JS.tryCatch, bind, JS.seq, fetch, pure, JS.ret, throw, throwThe,
      MonadExceptOf.throw, MonadExcept.throw, JS.raise, Response.parse, prop, console_error,
      tryCatch, tryCatchThe, MonadExceptOf.tryCatch, MonadExcept.tryCatch, hn, hok, hj]
      | ok data =>
        cases hs : data.get "success" with
        | error e =>
          simp [JS.tryCatch, bind, JS.seq, fetch, pure, JS.ret, throw, throwThe,
      MonadExceptOf.throw, MonadExcept.throw, JS.raise, Response.parse, prop, console_error,
      tryCatch, tryCatchThe, MonadExceptOf.tryCatch, MonadExcept.tryCatch, hn, hok, hj, hs]
        | ok success =>
          cases ht : success.truthy with
          | false =>
            cases hm : data.get "message" <;>
            simp [JS.tryCatch, bind, JS.seq, fetch, pure, JS.ret, throw, throwThe,
      MonadExceptOf.throw, MonadExcept.throw, JS.raise, Response.parse, prop, console_error,
      tryCatch, tryCatchThe, MonadExceptOf.tryCatch, MonadExcept.tryCatch, hn, hok, hj, hs, ht, hm]
          | true =>
            cases hm : data.get "results" <;>
            simp [JS.tryCatch, bind, JS.seq, fetch, pure, JS.ret, throw, throwThe,
      MonadExceptOf.throw, MonadExcept.throw, JS.raise, Response.parse, prop, console_error,
      tryCatch, tryCatchThe, MonadExceptOf.tryCatch, MonadExcept.tryCatch, hn, hok, hj, hs, ht, hm]

theorem setGlobalAnswers_outcome (answers : JSValue) (net : Fetch) :
    setGlobalAnswers answers net
      = envelopeOutcome (Call.setGlobalAnswers answers).specRequest "message" (.string "")
          "设置全局答案失败" "设置全局答案失败:" net := by
  have hreq : (Call.setGlobalAnswers answers).specRequest
      = ⟨API_BASE_URL ++ "/api/set-global-answers", "POST", jsonHeaders,
          JSON_stringify (.object [("answers", answers)])⟩ := rfl
  rw [hreq]
  simp only [setGlobalAnswers, envelopeOutcome]
  cases hn : net _ with
  | error e =>
    simp [JS.tryCatch, bind, JS.seq, fetch, pure, JS.ret, throw, throwThe,
      MonadExceptOf.throw, MonadExcept.throw, JS.raise, Response.parse, prop, console_error,
      tryCatch, tryCatchThe, MonadExceptOf.tryCatch, MonadExcept.tryCatch, hn]
  | ok response =>
    cases hok : response.ok with
    | false =>
      simp [JS.tryCatch, bind, JS.seq, fetch, pure, JS.ret, throw, throwThe,
      MonadExceptOf.throw, MonadExcept.throw, JS.raise, Response.parse, prop, console_error,
      tryCatch, tryCatchThe, MonadExceptOf.tryCatch, MonadExcept.tryCatch, hn, hok]
    | true =>
      cases hj : response.json with
      | error e =>
        simp [JS.tryCatch, bind, JS.seq, fetch, pure, JS.ret, throw, throwThe,
      MonadExceptOf.throw, MonadExcept.throw, JS.raise, Response.parse, prop, console_error,
      tryCatch, tryCatchThe, MonadExceptOf.tryCatch, MonadExcept.tryCatch, hn, hok, hj]
      | ok data =>
        cases hs : data.get "success" with
        | error e =>
          simp [JS.tryCatch, bind, JS.seq, fetch, pure, JS.ret, throw, throwThe,
      MonadExceptOf.throw, MonadExcept.throw, JS.raise, Response.parse, prop, console_error,
      tryCatch, tryCatchThe, MonadExceptOf.tryCatch, MonadExcept.tryCatch, hn, hok, hj, hs]
        | ok success =>
          cases ht : success.truthy with
          | false =>
            cases hm : data.get "message" <;>
            simp [JS.tryCatch, bind, JS.seq, fetch, pure, JS.ret, throw, throwThe,
      MonadExceptOf.throw, MonadExcept.throw, JS.raise, Response.parse, prop, console_error,
      tryCatch, tryCatchThe, MonadExceptOf.tryCatch, MonadExcept.tryCatch, hn, hok, hj, hs, ht, hm]
          | true =>
            cases hm : data.get "message" <;>
            simp [JS.tryCatch, bind, JS.seq, fetch, pure, JS.ret, throw, throwThe,
      MonadExceptOf.throw, MonadExcept.throw, JS.raise, Response.parse, prop, console_error,
      tryCatch, tryCatchThe, MonadExceptOf.tryCatch, MonadExcept.tryCatch, hn, hok, hj, hs, ht, hm]

theorem getGlobalAnswers_outcome (net : Fetch) :
    getGlobalAnswers net
      = envelopeOutcome Call.getGlobalAnswers.specRequest "answers" (.array [])
          "获取全局答案失败" "获取全局答案失败:" net := by
  have hreq : Call.getGlobalAnswers.specRequest
      = ⟨API_BASE_URL ++ "/api/get-global-answers", "GET", jsonHeaders,
          none⟩ := rfl
  rw [hreq]
  simp only [getGlobalAnswers, envelopeOutcome]
  cases hn : net _ with
  | error e =>
    simp [JS.tryCatch, bind, JS.seq, fetch, pure, JS.ret, throw, throwThe,
      MonadExceptOf.throw, MonadExcept.throw, JS.raise, Response.parse, prop, console_error,
      tryCatch, tryCatchThe, MonadExceptOf.tryCatch, MonadExcept.tryCatch, hn]
  | ok response =>
    cases hok : response.ok with
    | false =>
      simp [JS.tryCatch, bind, JS.seq, fetch, pure, JS.ret, throw, throwThe,
      MonadExceptOf.throw, MonadExcept.throw, JS.raise, Response.parse, prop, console_error,
      tryCatch, tryCatchThe, MonadExceptOf.tryCatch, MonadExcept.tryCatch, hn, hok]
    | true =>
      cases hj : response.json with
      | error e =>
        simp [JS.tryCatch, bind, JS.seq, fetch, pure, JS.ret, throw, throwThe,
      MonadExceptOf.throw, MonadExcept.throw, JS.raise, Response.parse, prop, console_error,
      tryCatch, tryCatchThe, MonadExceptOf.tryCatch, MonadExcept.tryCatch, hn, hok, hj]
      | ok data =>
        cases hs : data.get "success" with
        | error e =>
          simp [JS.tryCatch, bind, JS.seq, fetch, pure, JS.ret, throw, throwThe,
      MonadExceptOf.throw, MonadExcept.throw, JS.raise, Response.parse, prop, console_error,
      tryCatch, tryCatchThe, MonadExceptOf.tryCatch, MonadExcept.tryCatch, hn, hok, hj, hs]
        | ok success =>
          cases ht : success.truthy with
          | false =>
            cases hm : data.get "message" <;>
            simp [JS.tryCatch, bind, JS.seq, fetch, pure, JS.ret, throw, throwThe,
      MonadExceptOf.throw, MonadExcept.throw, JS.raise, Response.parse, prop, console_error,
      tryCatch, tryCatchThe, MonadExceptOf.tryCatch, MonadExcept.tryCatch, hn, hok, hj, hs, ht, hm]
          | true =>
            cases hm : data.get "answers" <;>
            simp [JS.tryCatch, bind, JS.seq, fetch, pure, JS.ret, throw, throwThe,
      MonadExceptOf.throw, MonadExcept.throw, JS.raise, Response.parse, prop, console_error,
      tryCatch, tryCatchThe, MonadExceptOf.tryCatch, MonadExcept.tryCatch, hn, hok, hj, hs, ht, hm]

theorem testOCRConnection_outcome (config : JSValue) (net : Fetch) :
    testOCRConnection config net
      = envelopeOutcome (Call.testOCRConnection config).specRequest "result" (.string "")
          "OCR测试失败" "OCR测试失败:" net := by
  have hreq : (Call.testOCRConnection config).specRequest
      = ⟨API_BASE_URL ++ "/api/test-ocr", "POST", jsonHeaders,
          JSON_stringify (.object [("config", config)])⟩ := rfl
  rw [hreq]
  simp only [testOCRConnection, envelopeOutcome]
  cases hn : net _ with
  | error e =>
    simp [JS.tryCatch, bind, JS.seq, fetch, pure, JS.ret, throw, throwThe,
      MonadExceptOf.throw, MonadExcept.throw, JS.raise, Response.parse, prop, console_error,
      tryCatch, tryCatchThe, MonadExceptOf.tryCatch, MonadExcept.tryCatch, hn]
  | ok response =>
    cases hok : response.ok with
    | false =>
      simp [JS.tryCatch, bind, JS.seq, fetch, pure, JS.ret, throw, throwThe,
      MonadExceptOf.throw, MonadExcept.throw, JS.raise, Response.parse, prop, console_error,
      tryCatch, tryCatchThe, MonadExceptOf.tryCatch, MonadExcept.tryCatch, hn, hok]
    | true =>
      cases hj : response.json with
      | error e =>
        simp [JS.tryCatch, bind, JS.seq, fetch, pure, JS.ret, throw, throwThe,
      MonadExceptOf.throw, MonadExcept.throw, JS.raise, Response.parse, prop, console_error,
      tryCatch, tryCatchThe, MonadExceptOf.tryCatch, MonadExcept.tryCatch, hn, hok, hj]
      | ok data =>
        cases hs : data.get "success" with
        | error e =>
          simp [JS.tryCatch, bind, JS.seq, fetch, pure, JS.ret, throw, throwThe,
      MonadExceptOf.throw, MonadExcept.throw, JS.raise, Response.parse, prop, console_error,
      tryCatch, tryCatchThe, MonadExceptOf.tryCatch, MonadExcept.tryCatch, hn, hok, hj, hs]
        | ok success =>
          cases ht : success.truthy with
          | false =>
            cases hm : data.get "message" <;>
            simp [JS.tryCatch, bind, JS.seq, fetch, pure, JS.ret, throw, throwThe,
      MonadExceptOf.throw, MonadExcept.throw, JS.raise, Response.parse, prop, console_error,
      tryCatch, tryCatchThe, MonadExceptOf.tryCatch, MonadExcept.tryCatch, hn, hok, hj, hs, ht, hm]
          | true =>
            cases hm : data.get "result" <;>
            simp [JS.tryCatch, bind, JS.seq, fetch, pure, JS.ret, throw, throwThe,
      MonadExceptOf.throw, MonadExcept.throw, JS.raise, Response.parse, prop, console_error,
      tryCatch, tryCatchThe, MonadExceptOf.tryCatch, MonadExcept.tryCatch, hn, hok, hj, hs, ht, hm]

theorem takeScreenshot_outcome (net : Fetch) :
    takeScreenshot net
      = envelopeOutcome Call.takeScreenshot.specRequest "image" (.string "")
          "截图失败" "截图失败:" net := by
  have hreq : Call.takeScreenshot.specRequest
      = ⟨API_BASE_URL ++ "/api/take-screenshot", "POST", jsonHeaders,
          none⟩ := rfl
  rw [hreq]
  simp only [takeScreenshot, envelopeOutcome]
  cases hn : net _ with
  | error e =>
    simp [JS.tryCatch, bind, JS.seq, fetch, pure, JS.ret, throw, throwThe,
      MonadExceptOf.throw, MonadExcept.throw, JS.raise, Response.parse, prop, console_error,
      tryCatch, tryCatchThe, MonadExceptOf.tryCatch, MonadExcept.tryCatch, hn]
  | ok response =>
    cases hok : response.ok with
    | false =>
      simp [JS.tryCatch, bind, JS.seq, fetch, pure, JS.ret, throw, throwThe,
      MonadExceptOf.throw, MonadExcept.throw, JS.raise, Response.parse, prop, console_error,
      tryCatch, tryCatchThe, MonadExceptOf.tryCatch, MonadExcept.tryCatch, hn, hok]
    | true =>
      cases hj : response.json with
      | error e =>
        simp [JS.tryCatch, bind, JS.seq, fetch, pure, JS.ret, throw, throwThe,
      MonadExceptOf.throw, MonadExcept.throw, JS.raise, Response.parse, prop, console_error,
      tryCatch, tryCatchThe, MonadExceptOf.tryCatch, MonadExcept.tryCatch, hn, hok, hj]
      | ok data =>
        cases hs : data.get "success" with
        | error e =>
          simp [JS.tryCatch, bind, JS.seq, fetch, pure, JS.ret, throw, throwThe,
      MonadExceptOf.throw, MonadExcept.throw, JS.raise, Response.parse, prop, console_error,
      tryCatch, tryCatchThe, MonadExceptOf.tryCatch, MonadExcept.tryCatch, hn, hok, hj, hs]
        | ok success =>
          cases ht : success.truthy with
          | false =>
            cases hm : data.get "message" <;>
            simp [JS.tryCatch, bind, JS.seq, fetch, pure, JS.ret, throw, throwThe,
      MonadExceptOf.throw, MonadExcept.throw, JS.raise, Response.parse, prop, console_error,
      tryCatch, tryCatchThe, MonadExceptOf.tryCatch, MonadExcept.tryCatch, hn, hok, hj, hs, ht, hm]
          | true =>
            cases hm : data.get "image" <;>
            simp [JS.tryCatch, bind, JS.seq, fetch, pure, JS.ret, throw, throwThe,
      MonadExceptOf.throw, MonadExcept.throw, JS.raise, Response.parse, prop, console_error,
      tryCatch, tryCatchThe, MonadExceptOf.tryCatch, MonadExcept.tryCatch, hn, hok, hj, hs, ht, hm]

theorem performOCR_outcome (area config : JSValue) (net : Fetch) :
    performOCR area config net
      = envelopeOutcome (Call.performOCR area config).specRequest "result" (.string "")
          "OCR执行失败" "OCR执行失败:" net := by
  have hreq : (Call.performOCR area config).specRequest
      = ⟨API_BASE_URL ++ "/api/perform-ocr", "POST", jsonHeaders,
          JSON_stringify (.object [("area", area), ("config", config)])⟩ := rfl
  rw [hreq]
  simp only [performOCR, envelopeOutcome]
  cases hn : net _ with
  | error e =>
    simp [JS.tryCatch, bind, JS.seq, fetch, pure, JS.ret, throw, throwThe,
      MonadExceptOf.throw, MonadExcept.throw, JS.raise, Response.parse, prop, console_error,
      tryCatch, tryCatchThe, MonadExceptOf.tryCatch, MonadExcept.tryCatch, hn]
  | ok response =>
    cases hok : response.ok with
    | false =>
      simp [JS.tryCatch, bind, JS.seq, fetch, pure, JS.ret, throw, throwThe,
      MonadExceptOf.throw, MonadExcept.throw, JS.raise, Response.parse, prop, console_error,
      tryCatch, tryCatchThe, MonadExceptOf.tryCatch, MonadExcept.tryCatch, hn, hok]
    | true =>
      cases hj : response.json with
      | error e =>
        simp [JS.tryCatch, bind, JS.seq, fetch, pure, JS.ret, throw, throwThe,
      MonadExceptOf.throw, MonadExcept.throw, JS.raise, Response.parse, prop, console_error,
      tryCatch, tryCatchThe, MonadExceptOf.tryCatch, MonadExcept.tryCatch, hn, hok, hj]
      | ok data =>
        cases hs : data.get "success" with
        | error e =>
          simp [JS.tryCatch, bind, JS.seq, fetch, pure, JS.ret, throw, throwThe,
      MonadExceptOf.throw, MonadExcept.throw, JS.raise, Response.parse, prop, console_error,
      tryCatch, tryCatchThe, MonadExceptOf.tryCatch, MonadExcept.tryCatch, hn, hok, hj, hs]
        | ok success =>
          cases ht : success.truthy with
          | false =>
            cases hm : data.get "message" <;>
            simp [JS.tryCatch, bind, JS.seq, fetch, pure, JS.ret, throw, throwThe,
      MonadExceptOf.throw, MonadExcept.throw, JS.raise, Response.parse, prop, console_error,
      tryCatch, tryCatchThe, MonadExceptOf.tryCatch, MonadExcept.tryCatch, hn, hok, hj, hs, ht, hm]
          | true =>
            cases hm : data.get "result" <;>
            simp [JS.tryCatch, bind, JS.seq, fetch, pure, JS.ret, throw, throwThe,
      MonadExceptOf.throw, MonadExcept.throw, JS.raise, Response.parse, prop, console_error,
      tryCatch, tryCatchThe, MonadExceptOf.tryCatch, MonadExcept.tryCatch, hn, hok, hj, hs, ht, hm]

/-- Every call has the outcome `envelopeOutcome` describes, with the request,
result key, empty default and fallback message of the specification's table. -/
theorem Call.run_outcome (c : Call) (net : Fetch) :
    c.run net
      = envelopeOutcome c.specRequest c.resultKey c.emptyDefault c.fallback c.logLabel net := by
  cases c with
  | searchAnswers query filters => exact searchAnswers_outcome query filters net
  | parseCSVFile filePath encoding optionSeparator answerSeparator =>
    exact parseCSVFile_outcome filePath encoding optionSeparator answerSeparator net
  | setGlobalAnswers answers => exact setGlobalAnswers_outcome answers net
  | getGlobalAnswers => exact getGlobalAnswers_outcome net
  | testOCRConnection config => exact testOCRConnection_outcome config net
  | takeScreenshot => exact takeScreenshot_outcome net
  | performOCR area config => exact performOCR_outcome area config net

/-- The function `testConnection`, run against a transport. -/
theorem testConnection_outcome (net : Fetch) :
    testConnection net
      = match net (Call.searchAnswers (.string "test") (.object [])).specRequest with
        | .error e =>
          ⟨[.fetch (Call.searchAnswers (.string "test") (.object [])).specRequest,
            .consoleError "连接测试失败:" e], .ok false⟩
        | .ok response =>
          ⟨[.fetch (Call.searchAnswers (.string "test") (.object [])).specRequest],
            .ok response.ok⟩ := by
  have hreq : (Call.searchAnswers (.string "test") (.object [])).specRequest
      = ⟨API_BASE_URL ++ "/api/search", "POST", jsonHeaders,
          JSON_stringify (.object [("query", .string "test"), ("filters", .object [])])⟩ := rfl
  rw [hreq]
  simp only [testConnection]
  cases hn : net _ <;>
  simp [JS.tryCatch, bind, JS.seq, fetch, pure, JS.ret, throw, throwThe,
      MonadExceptOf.throw, MonadExcept.throw, JS.raise, Response.parse, prop, console_error,
      tryCatch, tryCatchThe, MonadExceptOf.tryCatch, MonadExcept.tryCatch, hn]

/-! ## Facts about `envelopeOutcome` -/

/-- Exactly one request is issued, whatever the transport answers. -/
theorem envelopeOutcome_requests (req : Request) (key : String) (dflt : JSValue)
    (fb label : String) (net : Fetch) :
    requestsOf (envelopeOutcome req key dflt fb label net).trace = [req] := by
  unfold envelopeOutcome
  repeat (first | rfl | split)

/-- A thrown error is the last event's logged error, and it is the only log
line. -/
theorem envelopeOutcome_error (req : Request) (key : String) (dflt : JSValue)
    (fb label : String) (net : Fetch) (e : JSError)
    (h : (envelopeOutcome req key dflt fb label net).result = .error e) :
    ∃ t, (envelopeOutcome req key dflt fb label net).trace = t ++ [.consoleError label e]
      ∧ logsOf t = [] := by
  unfold envelopeOutcome at h ⊢
  cases hn : net req with
  | error e1 =>
    simp only [hn] at h ⊢
    cases h
    exact ⟨[.fetch req], rfl, rfl⟩
  | ok r =>
    cases hok : r.ok with
    | false =>
      simp [hn, hok] at h ⊢
      subst h
      exact ⟨[.fetch req], rfl, rfl⟩
    | true =>
      cases hj : r.json with
      | error e1 =>
        simp [hn, hok, hj] at h ⊢
        subst h
        exact ⟨[.fetch req, .json], rfl, rfl⟩
      | ok data =>
        cases hs : data.get "success" with
        | error e1 =>
          simp [hn, hok, hj, hs] at h ⊢
          subst h
          exact ⟨[.fetch req, .json], rfl, rfl⟩
        | ok success =>
          cases ht : success.truthy with
          | false =>
            cases hm : data.get "message" with
            | error e1 =>
              simp [hn, hok, hj, hs, ht, hm] at h ⊢
              subst h
              exact ⟨[.fetch req, .json], rfl, rfl⟩
            | ok m =>
              simp [hn, hok, hj, hs, ht, hm] at h ⊢
              subst h
              exact ⟨[.fetch req, .json], rfl, rfl⟩
          | true =>
            cases hm : data.get key with
            | error e1 =>
              simp [hn, hok, hj, hs, ht, hm] at h ⊢
              subst h
              exact ⟨[.fetch req, .json], rfl, rfl⟩
            | ok w =>
              simp [hn, hok, hj, hs, ht, hm] at h

/-- A returned value means that nothing failed and nothing was logged. -/
theorem envelopeOutcome_ok (req : Request) (key : String) (dflt : JSValue)
    (fb label : String) (net : Fetch) (v : JSValue)
    (h : (envelopeOutcome req key dflt fb label net).result = .ok v) :
    (envelopeOutcome req key dflt fb label net).trace = [.fetch req, .json]
      ∧ ∃ r data s w, net req = .ok r ∧ r.ok = true ∧ r.json = .ok data
          ∧ data.get "success" = .ok s ∧ s.truthy = true
          ∧ data.get key = .ok w ∧ v = w.or dflt := by
  unfold envelopeOutcome at h ⊢
  cases hn : net req with
  | error e1 => simp [hn] at h
  | ok r =>
    cases hok : r.ok with
    | false => simp [hn, hok] at h
    | true =>
      cases hj : r.json with
      | error e1 => simp [hn, hok, hj] at h
      | ok data =>
        cases hs : data.get "success" with
        | error e1 => simp [hn, hok, hj, hs] at h
        | ok success =>
          cases ht : success.truthy with
          | false =>
            cases hm : data.get "message" <;> simp [hn, hok, hj, hs, ht, hm] at h
          | true =>
            cases hm : data.get key with
            | error e1 => simp [hn, hok, hj, hs, ht, hm] at h
            | ok w =>
              simp [hn, hok, hj, hs, ht, hm] at h ⊢
              exact h.symm

/-- The outcome on a successful status and an envelope (a parsed object). -/
theorem Call.run_envelope (c : Call) (r : Response) (props : List (String × JSValue))
    (hok : r.ok = true) (hjson : r.json = .ok (.object props)) :
    c.run (fun _ => .ok r)
      = if ((props.lookup "success").getD .undefined).truthy then
          ⟨[.fetch c.specRequest, .json],
            .ok (((props.lookup c.resultKey).getD .undefined).or c.emptyDefault)⟩
        else
          ⟨[.fetch c.specRequest, .json, .consoleError c.logLabel
              (Error_new (((props.lookup "message").getD .undefined).or (.string c.fallback)))],
            .error (Error_new
              (((props.lookup "message").getD .undefined).or (.string c.fallback)))⟩ := by
  rw [Call.run_outcome]
  simp only [envelopeOutcome, hok, hjson, JSValue.get, if_true]

/-- On a string, `||` with the empty string changes nothing. -/
theorem or_empty_string (s : String) : (JSValue.string s).or (.string "") = .string s := by
  by_cases h : s = ""
  · subst h; rfl
  · simp [JSValue.or, JSValue.truthy, h]

/-! ## The claims -/

/-- C1: for each of the seven raising operations, a response with a
success-range status whose body parses to an envelope with `success = true`
and the operation's result key bound to a value `v` of the declared shape (a
sequence for `results`/`answers`, a string for `message`/`result`/`image`)
makes the operation return exactly `v`; nothing is thrown and nothing is
logged. -/
theorem returns_result_field_unchanged (c : Call) (r : Response)
    (props : List (String × JSValue)) (v : JSValue)
    (hok : r.ok = true) (hjson : r.json = .ok (.object props))
    (hsuccess : props.lookup "success" = some (.bool true))
    (hv : props.lookup c.resultKey = some v)
    (hshape : c.declaredShape v = true) :
    (c.run (fun _ => .ok r)).result = .ok v
      ∧ logsOf (c.run (fun _ => .ok r)).trace = [] := by
  rw [Call.run_envelope c r props hok hjson]
  simp only [hsuccess, hv, Option.getD_some, JSValue.truthy, if_true]
  refine ⟨?_, rfl⟩
  cases v with
  | array items => rfl
  | string s =>
    have hseq : c.returnsSequence = false := by
      simpa [Call.declaredShape] using hshape
    simp [Call.emptyDefault, hseq, or_empty_string]
  | undefined => simp [Call.declaredShape] at hshape
  | null => simp [Call.declaredShape] at hshape
  | bool b => simp [Call.declaredShape] at hshape
  | number n => simp [Call.declaredShape] at hshape
  | object ps => simp [Call.declaredShape] at hshape

/-- C1, on the scenario of the specification: `searchAnswers("foo", {lang:
"en"})` answered by `{"success":true,"results":[{"id":1}]}` yields
`[{"id":1}]`. -/
theorem returns_result_field_unchanged_witness :
    ((Call.searchAnswers (.string "foo") (.object [("lang", .string "en")])).run
        (fun _ => .ok searchHit)).result
        = .ok (.array [.object [("id", .number 1)]])
      ∧ logsOf ((Call.searchAnswers (.string "foo") (.object [("lang", .string "en")])).run
        (fun _ => .ok searchHit)).trace = [] :=
  returns_result_field_unchanged
    (Call.searchAnswers (.string "foo") (.object [("lang", .string "en")])) searchHit
    [("success", .bool true), ("results", .array [.object [("id", .number 1)]])]
    (.array [.object [("id", .number 1)]]) rfl rfl rfl rfl rfl

/-- C2, as stated, fails for the empty message: `getGlobalAnswers()` answered
by `200 OK` with body `{"success":false,"message":""}` throws an error whose
message is the fallback `获取全局答案失败`, not the envelope's message `""`. -/
theorem empty_message_replaced_by_fallback :
    emptyMessage.ok = true
      ∧ emptyMessage.json
          = .ok (.object [("success", .bool false), ("message", .string "")])
      ∧ (Call.getGlobalAnswers.run (fun _ => .ok emptyMessage)).result
          = .error ⟨"Error", "获取全局答案失败"⟩
      ∧ ¬ ∃ e, (Call.getGlobalAnswers.run (fun _ => .ok emptyMessage)).result = .error e
          ∧ e.message = "" := by
  have hrun : (Call.getGlobalAnswers.run (fun _ => .ok emptyMessage)).result
      = .error ⟨"Error", "获取全局答案失败"⟩ := rfl
  refine ⟨rfl, rfl, hrun, ?_⟩
  rintro ⟨e, he, hmsg⟩
  rw [hrun] at he
  cases he
  revert hmsg
  decide

/-- C2, amended: for each of the seven raising operations and every non-empty
string `m`, a response with a success-range status whose envelope has
`success = false` and `message = m` makes the operation throw an error whose
message is `m`, whatever else the envelope holds. -/
theorem backend_message_becomes_error (c : Call) (r : Response)
    (props : List (String × JSValue)) (m : String)
    (hok : r.ok = true) (hjson : r.json = .ok (.object props))
    (hsuccess : props.lookup "success" = some (.bool false))
    (hmessage : props.lookup "message" = some (.string m))
    (hne : m ≠ "") :
    ∃ e, (c.run (fun _ => .ok r)).result = .error e ∧ e.message = m := by
  rw [Call.run_envelope c r props hok hjson]
  refine ⟨⟨"Error", m⟩, ?_, rfl⟩
  simp [hsuccess, hmessage, JSValue.truthy, JSValue.or, hne, Error_new, JSValue.toStr]

/-- C2 (amended), on the scenario of the specification: `getGlobalAnswers()`
answered by `{"success":false,"message":"no answers set"}` throws an error
with message "no answers set". -/
theorem backend_message_becomes_error_witness :
    ∃ e, (Call.getGlobalAnswers.run (fun _ => .ok noAnswersSet)).result = .error e
      ∧ e.message = "no answers set" :=
  backend_message_becomes_error Call.getGlobalAnswers noAnswersSet
    [("success", .bool false), ("message", .string "no answers set")] "no answers set"
    rfl rfl rfl rfl (by decide)

/-- C3: for each of the seven raising operations, a response whose status `s`
is outside the success range, with status text `t`, makes the operation throw
an error whose message is `HTTP请求失败: ` followed by `s`, a space and `t`.
The body is never parsed (`response.json()` is not called), and the outcome is
the same for every body, valid JSON or not. -/
theorem bad_status_fails_without_parsing (c : Call) (r : Response) (hok : r.ok = false) :
    (c.run (fun _ => .ok r)).result
        = .error ⟨"Error", "HTTP请求失败: " ++ toString r.status ++ " " ++ r.statusText⟩
      ∧ parsesOf (c.run (fun _ => .ok r)).trace = 0
      ∧ ∀ body : Except JSError JSValue,
          c.run (fun _ => .ok ⟨r.status, r.statusText, body⟩) = c.run (fun _ => .ok r) := by
  have hok2 : ∀ body : Except JSError JSValue,
      (Response.mk r.status r.statusText body).ok = false := fun _ => hok
  refine ⟨?_, ?_, ?_⟩
  · rw [Call.run_outcome]
    simp [envelopeOutcome, hok, Error_new, httpFailure, JSValue.toStr]
  · rw [Call.run_outcome]
    simp [envelopeOutcome, hok, parsesOf]
  · intro body
    rw [Call.run_outcome, Call.run_outcome]
    simp [envelopeOutcome, hok, hok2 body, httpFailure]

/-- C3, on a concrete input: `searchAnswers("foo")` answered by `500 Internal
Server Error` throws `HTTP请求失败: 500 Internal Server Error`, although the
body is a well-formed success envelope. -/
theorem bad_status_fails_without_parsing_witness :
    ((Call.searchAnswers (.string "foo") .undefined).run (fun _ => .ok serverError)).result
        = .error ⟨"Error", "HTTP请求失败: 500 Internal Server Error"⟩
      ∧ parsesOf ((Call.searchAnswers (.string "foo") .undefined).run
          (fun _ => .ok serverError)).trace = 0
      ∧ ∀ body : Except JSError JSValue,
          (Call.searchAnswers (.string "foo") .undefined).run
              (fun _ => .ok ⟨serverError.status, serverError.statusText, body⟩)
            = (Call.searchAnswers (.string "foo") .undefined).run (fun _ => .ok serverError) :=
  bad_status_fails_without_parsing (Call.searchAnswers (.string "foo") .undefined)
    serverError rfl

/-- C5: for each of the seven raising operations, a response with a
success-range status whose envelope has `success = true` and no result key
makes the operation return its empty default: `[]` for `searchAnswers`,
`parseCSVFile` and `getGlobalAnswers`, `""` for `setGlobalAnswers`,
`testOCRConnection`, `takeScreenshot` and `performOCR`. -/
theorem absent_result_gives_empty_default (c : Call) (r : Response)
    (props : List (String × JSValue))
    (hok : r.ok = true) (hjson : r.json = .ok (.object props))
    (hsuccess : props.lookup "success" = some (.bool true))
    (habsent : props.lookup c.resultKey = none) :
    (c.run (fun _ => .ok r)).result = .ok c.emptyDefault := by
  rw [Call.run_envelope c r props hok hjson]
  simp [hsuccess, habsent, JSValue.truthy, JSValue.or]

/-- C5, on the scenario of the specification: `takeScreenshot()` answered by
`{"success":true}` returns `""`. -/
theorem absent_result_gives_empty_default_witness :
    (Call.takeScreenshot.run (fun _ => .ok bareSuccess)).result = .ok (.string "") :=
  absent_result_gives_empty_default Call.takeScreenshot bareSuccess
    [("success", .bool true)] rfl rfl rfl rfl

/-- C6: for each of the seven raising operations, a response with a
success-range status whose envelope has a falsy `success` (false or absent)
and no `message` makes the operation throw an error whose message is the
fixed fallback string of the operation, whatever the arguments and the other
fields of the envelope are. -/
theorem missing_message_gives_fallback (c : Call) (r : Response)
    (props : List (String × JSValue))
    (hok : r.ok = true) (hjson : r.json = .ok (.object props))
    (hsuccess : props.lookup "success" = some (.bool false) ∨ props.lookup "success" = none)
    (hmessage : props.lookup "message" = none) :
    (c.run (fun _ => .ok r)).result = .error ⟨"Error", c.fallback⟩ := by
  rw [Call.run_envelope c r props hok hjson]
  rcases hsuccess with hs | hs <;>
  simp [hs, hmessage, JSValue.truthy, JSValue.or, Error_new, JSValue.toStr]

/-- C6, on a concrete input: `testOCRConnection(config)` answered by
`{"results":[]}` (neither `success` nor `message`) throws `OCR测试失败`. -/
theorem missing_message_gives_fallback_witness :
    ((Call.testOCRConnection (.object [("engine", .string "paddle")])).run
        (fun _ => .ok noSuccessField)).result = .error ⟨"Error", "OCR测试失败"⟩ :=
  missing_message_gives_fallback (Call.testOCRConnection (.object [("engine", .string "paddle")]))
    noSuccessField [("results", .array [])] rfl rfl (Or.inr rfl) rfl

/-- C4: `testConnection` never throws.  Against every transport it returns a
boolean: `response.ok` (true exactly when the status is between 200 and 299)
when the transport answers, `false` when the transport throws.  The body is
never parsed, so the result is the same for every body, a `success: false`
envelope or an unparsable one included. -/
theorem testConnection_never_raises (net : Fetch) :
    (∃ b, (testConnection net).result = .ok b)
      ∧ (∀ r : Response, (testConnection (fun _ => .ok r)).result = .ok r.ok
          ∧ (r.ok = true ↔ 200 ≤ r.status ∧ r.status ≤ 299))
      ∧ (∀ e : JSError, (testConnection (fun _ => .error e)).result = .ok false)
      ∧ (∀ (status : Nat) (text : String) (body1 body2 : Except JSError JSValue),
          (testConnection (fun _ => .ok ⟨status, text, body1⟩)).result
            = (testConnection (fun _ => .ok ⟨status, text, body2⟩)).result)
      ∧ parsesOf (testConnection net).trace = 0 := by
  refine ⟨?_, ?_, ?_, ?_, ?_⟩
  · rw [testConnection_outcome]
    cases net _ with
    | error e => exact ⟨false, rfl⟩
    | ok r => exact ⟨r.ok, rfl⟩
  · intro r
    refine ⟨by rw [testConnection_outcome], ?_⟩
    simp [Response.ok]
  · intro e
    rw [testConnection_outcome]
  · intro status text body1 body2
    rw [testConnection_outcome, testConnection_outcome]
    rfl
  · rw [testConnection_outcome]
    cases net _ <;> rfl

/-- C7: each of the seven raising operations issues exactly one request, the
one the specification's table describes: base URL `http://localhost:8088`
followed by the path, the declared method, the JSON text of the declared
fields as body (no body for `getGlobalAnswers` and `takeScreenshot`) and the
header `Content-Type: application/json`.  For `searchAnswers` an omitted
`filters` sends the same request as `{}`, and `searchAnswers("foo", {lang:
"en"})` sends the body `{"query":"foo","filters":{"lang":"en"}}`. -/
theorem issues_the_declared_request (c : Call) (net : Fetch) (query : JSValue) :
    requestsOf (c.run net).trace = [c.specRequest]
      ∧ requestsOf ((Call.searchAnswers query .undefined).run net).trace
          = requestsOf ((Call.searchAnswers query (.object [])).run net).trace
      ∧ requestsOf ((Call.searchAnswers (.string "foo")
            (.object [("lang", .string "en")])).run net).trace
          = [⟨"http://localhost:8088/api/search", "POST",
              [("Content-Type", "application/json")],
              some "\x7b\"query\":\"foo\",\"filters\":\x7b\"lang\":\"en\"\x7d\x7d"⟩]
      ∧ requestsOf (Call.getGlobalAnswers.run net).trace
          = [⟨"http://localhost:8088/api/get-global-answers", "GET",
              [("Content-Type", "application/json")], none⟩]
      ∧ requestsOf (Call.takeScreenshot.run net).trace
          = [⟨"http://localhost:8088/api/take-screenshot", "POST",
              [("Content-Type", "application/json")], none⟩]
      ∧ (∀ req ∈ requestsOf (c.run net).trace,
          ("Content-Type", "application/json") ∈ req.headers) := by
  have h : ∀ d : Call, requestsOf (d.run net).trace = [d.specRequest] := fun d => by
    rw [Call.run_outcome]
    exact envelopeOutcome_requests _ _ _ _ _ net
  refine ⟨h c, ?_, ?_, ?_, ?_, ?_⟩
  · rw [h, h]
    rfl
  · rw [h]
    rfl
  · rw [h]
    rfl
  · rw [h]
    rfl
  · intro req hreq
    rw [h c] at hreq
    simp only [List.mem_singleton] at hreq
    subst hreq
    simp [Call.specRequest]

/-- C8: the request issued by `testConnection()` is the request issued by
`searchAnswers("test", {})` and by `searchAnswers("test")`: `POST
http://localhost:8088/api/search` with header `Content-Type:
application/json` and body `{"query":"test","filters":{}}`. -/
theorem testConnection_probe_request (net : Fetch) :
    requestsOf (testConnection net).trace
        = requestsOf (searchAnswers (.string "test") (.object []) net).trace
      ∧ requestsOf (testConnection net).trace
        = requestsOf (searchAnswers (.string "test") .undefined net).trace
      ∧ requestsOf (testConnection net).trace
        = [⟨"http://localhost:8088/api/search", "POST",
            [("Content-Type", "application/json")],
            some "\x7b\"query\":\"test\",\"filters\":\x7b\x7d\x7d"⟩] := by
  have ht : requestsOf (testConnection net).trace
      = [(Call.searchAnswers (.string "test") (.object [])).specRequest] := by
    rw [testConnection_outcome]
    cases net _ <;> rfl
  rw [ht, searchAnswers_outcome, searchAnswers_outcome, envelopeOutcome_requests,
    envelopeOutcome_requests]
  exact ⟨rfl, rfl, rfl⟩

/-- C9: for each of the seven raising operations: when the transport throws
`e`, or the status is in the success range and parsing the body throws `e`,
the operation throws that same `e`, after logging it once, and no second
request is issued.  In general, whenever the operation throws an error, that
error was logged exactly once, as the last event before it is re-thrown, and
exactly one request was issued; and the operation returns a value only if
nothing failed (the transport answered, the status was in the success range,
the body parsed and `success` was truthy), in which case nothing is logged. -/
theorem failures_logged_once_and_rethrown (c : Call) (net : Fetch) :
    (∀ e, net c.specRequest = .error e →
        c.run net = ⟨[.fetch c.specRequest, .consoleError c.logLabel e], .error e⟩)
      ∧ (∀ r e, net c.specRequest = .ok r → r.ok = true → r.json = .error e →
        c.run net = ⟨[.fetch c.specRequest, .json, .consoleError c.logLabel e], .error e⟩)
      ∧ (∀ e, (c.run net).result = .error e →
        ∃ t, (c.run net).trace = t ++ [.consoleError c.logLabel e] ∧ logsOf t = [])
      ∧ requestsOf (c.run net).trace = [c.specRequest]
      ∧ (∀ v, (c.run net).result = .ok v →
        logsOf (c.run net).trace = []
          ∧ ∃ r data s, net c.specRequest = .ok r ∧ r.ok = true ∧ r.json = .ok data
              ∧ data.get "success" = .ok s ∧ s.truthy = true) := by
  rw [Call.run_outcome]
  refine ⟨?_, ?_, ?_, ?_, ?_⟩
  · intro e he
    simp [envelopeOutcome, he]
  · intro r e hr hok hjson
    simp [envelopeOutcome, hr, hok, hjson]
  · intro e he
    exact envelopeOutcome_error _ _ _ _ _ net e he
  · exact envelopeOutcome_requests _ _ _ _ _ net
  · intro v hv
    obtain ⟨ht, r, data, s, w, h1, h2, h3, h4, h5, _, _⟩ :=
      envelopeOutcome_ok _ _ _ _ _ net v hv
    rw [ht]
    exact ⟨rfl, r, data, s, h1, h2, h3, h4, h5⟩

/-- C9, on a concrete input: with the backend unreachable, `getGlobalAnswers()`
issues its one request, logs the transport's `TypeError` once and throws that
same error. -/
theorem failures_logged_once_and_rethrown_witness :
    Call.getGlobalAnswers.run offline
      = ⟨[.fetch Call.getGlobalAnswers.specRequest,
          .consoleError "获取全局答案失败:" ⟨"TypeError", "Failed to fetch"⟩],
          .error ⟨"TypeError", "Failed to fetch"⟩⟩ :=
  (failures_logged_once_and_rethrown Call.getGlobalAnswers offline).1
    ⟨"TypeError", "Failed to fetch"⟩ rfl

/-- C10: for each of the seven raising operations, a response with a
success-range status whose envelope has a truthy `success` makes the
operation return `v || default`, where `v` is whatever the result key holds
(`undefined` when absent): `v` itself when `v` is truthy, the empty default
when `v` is falsy, and the falsy values are exactly `undefined`, `null`,
`false`, `0` and `""`.  Consequently no call, against any transport, returns
`null`, `undefined`, `false` or `0`; and `results`/`answers` sent as `null`
come back as `[]`. -/
theorem result_field_or_default (c : Call) (r : Response)
    (props : List (String × JSValue))
    (hok : r.ok = true) (hjson : r.json = .ok (.object props))
    (hsuccess : ((props.lookup "success").getD .undefined).truthy = true) :
    (c.run (fun _ => .ok r)).result
        = .ok (((props.lookup c.resultKey).getD .undefined).or c.emptyDefault)
      ∧ (∀ v : JSValue, v.truthy = true → v.or c.emptyDefault = v)
      ∧ (∀ v : JSValue, v.truthy = false → v.or c.emptyDefault = c.emptyDefault)
      ∧ (∀ v : JSValue, v.truthy = false ↔
          v = .undefined ∨ v = .null ∨ v = .bool false ∨ v = .number 0 ∨ v = .string "")
      ∧ (∀ (net : Fetch) (v : JSValue), (c.run net).result = .ok v →
          v ≠ .null ∧ v ≠ .undefined ∧ v ≠ .bool false ∧ v ≠ .number 0)
      ∧ (c.returnsSequence = true → props.lookup c.resultKey = some .null →
          (c.run (fun _ => .ok r)).result = .ok (.array [])) := by
  have hrun : (c.run (fun _ => .ok r)).result
      = .ok (((props.lookup c.resultKey).getD .undefined).or c.emptyDefault) := by
    rw [Call.run_envelope c r props hok hjson]
    simp [hsuccess]
  refine ⟨hrun, ?_, ?_, ?_, ?_, ?_⟩
  · intro v hv
    simp [JSValue.or, hv]
  · intro v hv
    simp [JSValue.or, hv]
  · intro v
    cases v <;> simp [JSValue.truthy]
  · intro net v hv
    rw [Call.run_outcome] at hv
    obtain ⟨_, _, _, _, w, _, _, _, _, _, _, hw⟩ := envelopeOutcome_ok _ _ _ _ _ net v hv
    have htruthy : v.truthy = true ∨ v = .array [] ∨ v = .string "" := by
      rw [hw]
      unfold JSValue.or Call.emptyDefault
      split
      · rename_i h
        exact Or.inl h
      · split
        · exact Or.inr (Or.inl rfl)
        · exact Or.inr (Or.inr rfl)
    rcases htruthy with h | h | h
    · refine ⟨?_, ?_, ?_, ?_⟩ <;> (intro hv2; rw [hv2] at h; simp [JSValue.truthy] at h)
    · subst h
      simp
    · subst h
      simp
  · intro _ hnull
    rw [hrun, hnull]
    simp [JSValue.or, JSValue.truthy, Call.emptyDefault, *]

/-- C10, on a concrete input: `getGlobalAnswers()` answered by
`{"success":1,"answers":null}` returns `[]`. -/
theorem result_field_or_default_witness :
    (Call.getGlobalAnswers.run (fun _ => .ok nullAnswers)).result = .ok (.array []) :=
  (result_field_or_default Call.getGlobalAnswers nullAnswers
    [("success", .number 1), ("answers", .null)] rfl rfl rfl).2.2.2.2.2 rfl rfl

end HttpService
